import Mathlib

/-!
Verification development for the briefliee voice-memo application.

The definitions below are a shallow embedding of the repository's three
source files:

* `src/hooks/useSpeechToText.ts` — the transcription client `transcribe`:
  blob fetch, upload, job submission, and the 3-second polling loop.
* `src/hooks/useAudioRecording.ts` — the audio capture adapter
  (`stopRecording`, `checkPermissions`), the summarization client
  `generateSummary`, and the Express persistence gateway
  (`POST /api/recordings`, `GET /api/recordings`).
* `src/app/index.tsx` — the session coordinator (`handleStartRecording`).

Remote HTTP responses are modelled as explicit environment values handed to
the embedded functions; JavaScript-specific semantics (falsiness of the
empty string under `||` and `!`, the `TypeError` raised by indexing
`undefined`, string coercion of `undefined`) are modelled explicitly where
the code relies on them.
-/

namespace Briefliee

/-! ## Transcription client (`src/hooks/useSpeechToText.ts`) -/

/-- JSON body of a transcript status response (`GET /v2/transcript/{id}`),
and also of the submit response, which carries the same `status` field.
`text` and `error` are `Option` because the fields may be absent. -/
structure PollResp where
  status : String
  text : Option String
  error : Option String
deriving Repr, DecidableEq

/-- Response to the upload request (`POST /v2/upload`). When `ok` is false
the code reads the body with `text()` (`errText`); when ok it reads the
JSON field `upload_url`. -/
structure UploadResp where
  ok : Bool
  status : Nat
  errText : String
  upload_url : String
deriving Repr, DecidableEq

/-- Response to the job submission (`POST /v2/transcript`). When ok, its
JSON body becomes the initial `transcriptData` of the polling loop. -/
structure SubmitResp where
  ok : Bool
  status : Nat
  errText : String
  id : String
  initial : PollResp
deriving Repr, DecidableEq

/-- The remote world a single `transcribe(audioUri)` call observes:
whether fetching the local blob succeeds, the two POST responses, and the
scripted sequence of polling responses. -/
structure TranscribeEnv where
  blobOk : Bool
  blobErrMsg : String
  upload : UploadResp
  submit : SubmitResp
  polls : List PollResp
deriving Repr

/-- The errors `transcribe` can throw, in the spec's taxonomy, each
carrying exactly the payload the source code puts into the thrown
`Error`'s message. -/
inductive TranscribeErr where
  | FetchFailed (msg : String)
  | UploadFailed (body : String)
  | SubmitFailed (status : Nat)
  | TranscriptionFailed (msg : String)
deriving Repr, DecidableEq

/-- JavaScript string coercion of a possibly-`undefined` value, as in
`"Transcription failed: " + transcriptData.error`. -/
def jsCoerce : Option String → String
  | some s => s
  | none => "undefined"

/-- The message of the `Error` the source code throws, including the
literal prefixes from `useSpeechToText.ts`. -/
def errMessage : TranscribeErr → String
  | .FetchFailed m => m
  | .UploadFailed b => "Upload failed: " ++ b
  | .SubmitFailed s => "Transcription failed: " ++ toString s
  | .TranscriptionFailed m => "Transcription failed: " ++ m

/-- The `while` loop of `transcribe`: starting from the current
`transcriptData`, keep waiting 3000 ms and polling until `status` is
`"completed"` or `"error"`. Returns the final `transcriptData`, the
number of poll requests issued, and the list of waits (in ms) performed.
`none` models the loop still running when the scripted responses run out. -/
def pollLoop (cur : PollResp) (rest : List PollResp) :
    Option (PollResp × Nat × List Nat) :=
  if cur.status = "completed" ∨ cur.status = "error" then
    some (cur, 0, [])
  else
    match rest with
    | [] => none
    | p :: ps =>
      match pollLoop p ps with
      | none => none
      | some (fin, n, ws) => some (fin, n + 1, 3000 :: ws)
termination_by rest.length
decreasing_by simp

/-- The body of the `try` block of `transcribe`: blob fetch, upload,
submission, polling, terminal-status dispatch. `.ok t` is the returned
`transcriptData.text` (which may be absent); `.error e` is the thrown
error. The outer `none` again models a never-terminating polling loop. -/
def transcribeCore (env : TranscribeEnv) :
    Option (Except TranscribeErr (Option String) × Nat × List Nat) :=
  if !env.blobOk then
    some (.error (.FetchFailed env.blobErrMsg), 0, [])
  else if !env.upload.ok then
    some (.error (.UploadFailed env.upload.errText), 0, [])
  else if !env.submit.ok then
    some (.error (.SubmitFailed env.submit.status), 0, [])
  else
    match pollLoop env.submit.initial env.polls with
    | none => none
    | some (fin, n, ws) =>
      if fin.status = "error" then
        some (.error (.TranscriptionFailed (jsCoerce fin.error)), n, ws)
      else
        some (.ok fin.text, n, ws)

/-- Observable outcome of an entire `transcribe` call: the value the
returned promise resolves to, and the hook state after it settles. -/
structure TranscribeOutcome where
  result : Option String
  isTranscribing : Bool
  error : Option String
deriving Repr, DecidableEq

/-- The whole of `transcribe`, with its `try`/`catch`: a thrown error is
caught, recorded in the hook's `error` state, and turned into a `null`
resolution; `isTranscribing` is reset on both paths. -/
def transcribeRun (env : TranscribeEnv) : Option TranscribeOutcome :=
  match transcribeCore env with
  | none => none
  | some (.ok t, _, _) => some ⟨t, false, none⟩
  | some (.error e, _, _) => some ⟨none, false, some (errMessage e)⟩

/-- The scripted environment of the spec's polling test: submit answers
`queued`, the polls answer `processing` then `completed` with text
`"hello world"`. -/
def envHelloWorld : TranscribeEnv where
  blobOk := true
  blobErrMsg := ""
  upload := ⟨true, 200, "", "https://cdn.example/upload/1"⟩
  submit := ⟨true, 200, "", "job-1", ⟨"queued", none, none⟩⟩
  polls := [⟨"processing", none, none⟩, ⟨"completed", some "hello world", none⟩]

/-- The scripted environment of the spec's error test: the job reaches
status `error` with message `"bad audio"` (here already on submission's
initial status, the shortest script that exercises the error arm). -/
def envBadAudio : TranscribeEnv where
  blobOk := true
  blobErrMsg := ""
  upload := ⟨true, 200, "", "https://cdn.example/upload/2"⟩
  submit := ⟨true, 200, "", "job-2", ⟨"error", none, some "bad audio"⟩⟩
  polls := []

/-! ## Summarization client (`useSummary.generateSummary`) -/

/-- A role-tagged chat message, as in the `Message` interface. -/
structure Message where
  role : String
  content : String
deriving Repr, DecidableEq

/-- The literal system instruction of `generateSummary`. -/
def systemInstruction : String :=
  "You are a helpful assistant that creates concise, clear summaries. Summarize the following text in 2-3 sentences, capturing the main points and key information."

/-- The two-message exchange `generateSummary` builds for input `text`. -/
def buildMessages (text : String) : List Message :=
  [⟨"system", systemInstruction⟩,
   ⟨"user", "Please summarize this text:\n\n" ++ text⟩]

/-- The JSON body `generateSummary` POSTs to the chat-completion
endpoint. `temperature` is the literal 0.3, kept as a rational. -/
structure ChatRequest where
  model : String
  messages : List Message
  max_tokens : Nat
  temperature : ℚ
deriving Repr, DecidableEq

/-- `message` object inside a completion choice; `content` may be absent. -/
structure ChoiceMsg where
  content : Option String
deriving Repr, DecidableEq

/-- One element of the `choices` array; `message` may be absent. -/
structure Choice where
  message : Option ChoiceMsg
deriving Repr, DecidableEq

/-- Upstream chat-completion response. `choices = none` models a JSON
body in which the `choices` field itself is absent. -/
structure SummaryResp where
  ok : Bool
  status : Nat
  errText : String
  choices : Option (List Choice)
deriving Repr, DecidableEq

/-- `data.choices[0]?.message?.content`: indexing an absent `choices`
raises a `TypeError` (`.error`), while optional chaining from an empty
array or absent sub-fields yields `undefined` (`.ok none`). -/
def firstContent (r : SummaryResp) : Except Unit (Option String) :=
  match r.choices with
  | none => .error ()
  | some cs =>
    .ok (match cs.head? with
      | none => none
      | some c =>
        match c.message with
        | none => none
        | some m => m.content)

/-- JavaScript `v || d` on a possibly-`undefined` string: the empty
string is falsy, so it also falls through to the default. -/
def jsOrElse (v : Option String) (d : String) : String :=
  match v with
  | some s => if s = "" then d else s
  | none => d

/-- Stands for the runtime message of the `TypeError` raised by
`data.choices[0]` when `choices` is absent; its exact wording is
engine-defined, not fixed by this repository's source. -/
def typeErrorMsg : String := "TypeError"

/-- Observable outcome of a `generateSummary(text)` call: the resolved
string, the hook state after settling, and the list of chat-completion
requests issued during the call. -/
structure SummaryOutcome where
  result : String
  isGeneratingSummary : Bool
  error : Option String
  requests : List ChatRequest
deriving Repr, DecidableEq

/-- The whole of `generateSummary`, with its `try`/`catch`: exactly one
request is built and sent; a non-ok response or a `TypeError` while
extracting the content is caught and resolves to the literal failure
string; otherwise the extracted content (or the `'No summary generated'`
fallback) is returned. The promise always resolves. -/
def generateSummary (text : String) (resp : SummaryResp) : SummaryOutcome :=
  let req : ChatRequest :=
    ⟨"openai/chatgpt-4o-latest", buildMessages text, 150, 3 / 10⟩
  if !resp.ok then
    ⟨"Failed to generate summary. Please try again.", false,
      some ("Summary generation failed: " ++ toString resp.status), [req]⟩
  else
    match firstContent resp with
    | .error () =>
      ⟨"Failed to generate summary. Please try again.", false,
        some typeErrorMsg, [req]⟩
    | .ok c =>
      ⟨jsOrElse c "No summary generated", false, none, [req]⟩

/-! ## Audio capture adapter (`useAudioRecording`) -/

/-- Environment of a web-platform `stopRecording()` call:
whether `mediaRecorderRef.current` is set, whether finalizing the
capture (the `Blob` construction and `URL.createObjectURL`) succeeds,
and the object URL produced when it does. -/
structure WebStopEnv where
  hasRecorder : Bool
  extractOk : Bool
  url : String
deriving Repr, DecidableEq

/-- Adapter-side state touched by `stopRecording()` on web: whether the
microphone stream's tracks are still live (the exclusive device
resource), the `isRecording` flag, and whether `mediaRecorderRef` still
holds a recorder. -/
structure WebStopState where
  deviceHeld : Bool
  isRecording : Bool
  recorderPresent : Bool
deriving Repr, DecidableEq

/-- How the promise returned by `stopRecording()` settles: resolved with
an audio reference or `null`, or never settled because the `onstop`
handler threw before reaching `resolve`. -/
inductive StopOutcome where
  | resolved (r : Option String)
  | hung
deriving Repr, DecidableEq

/-- The `Platform.OS === 'web'` branch of `stopRecording`. The `onstop`
handler builds the blob and object URL first and only then stops the
stream's tracks, resets the flag, clears the refs and resolves; if the
extraction throws, execution leaves the handler before any of those
steps, so the tracks stay live and the promise never settles. -/
def stopRecordingWeb (env : WebStopEnv) (st : WebStopState) :
    StopOutcome × WebStopState :=
  if !env.hasRecorder then
    (.resolved none, st)
  else if env.extractOk then
    (.resolved (some env.url),
      { deviceHeld := false, isRecording := false, recorderPresent := false })
  else
    (.hung, st)

/-- Environment observed by `checkPermissions()`: the platform branch
taken, browser capability and origin checks, and whether the probe
`getUserMedia({audio:true})` (resp. `Audio.requestPermissionsAsync`)
grants access. -/
structure PermEnv where
  web : Bool
  mediaDevicesSupported : Bool
  secureOrigin : Bool
  getUserMediaOk : Bool
  nativeGranted : Bool
deriving Repr, DecidableEq

/-- `checkPermissions`: on web, requires media-device support, a secure
origin, and a successful probe (whose stream is stopped at once); on
native, requires the permission status `'granted'`. Every failing check
returns `false` rather than throwing. -/
def checkPermissions (e : PermEnv) : Bool :=
  if e.web then
    e.mediaDevicesSupported && e.secureOrigin && e.getUserMediaOk
  else
    e.nativeGranted

/-! ## Session coordinator (`src/app/index.tsx`) -/

/-- The coordinator's session fields in `VoiceRecorderScreen`. -/
structure UIState where
  isRecording : Bool
  recordingDuration : Nat
  transcribedText : String
  summary : String
deriving Repr, DecidableEq

/-- User-visible signals `handleStartRecording` can emit: the
permission-required alert (whose `retryOffered` records its `Retry`
button) or the hard recording-error alert from the `catch` block. -/
inductive UIEffect where
  | permissionAlert (retryOffered : Bool)
  | recordingErrorAlert (msg : String)
deriving Repr, DecidableEq

/-- `handleStartRecording`: check permission first; when denied, show
the permission alert (with a `Retry` button) and return without touching
any session field. Otherwise start recording; success resets the session
fields for a fresh session, failure shows the recording-error alert. -/
def handleStartRecording (hasPermission : Bool)
    (startResult : Except String Unit) (st : UIState) :
    UIState × List UIEffect :=
  if !hasPermission then
    (st, [.permissionAlert true])
  else
    match startResult with
    | .ok _ => (⟨true, 0, "", ""⟩, [])
    | .error msg => (st, [.recordingErrorAlert msg])

/-! ## Persistence gateway (Express routes over the `Recording` model) -/

/-- A stored document of the `Recording` Mongoose model. -/
structure RecordingDoc where
  transcription : String
  summary : String
  createdAt : Nat
deriving Repr, DecidableEq

/-- The document store plus a clock supplying `Date.now` defaults for
`createdAt`; the clock advances past each insertion. -/
structure StoreState where
  docs : List RecordingDoc
  now : Nat
deriving Repr, DecidableEq

/-- Request body of `POST /api/recordings`; either field may be absent. -/
structure PostBody where
  transcription : Option String
  summary : Option String
deriving Repr, DecidableEq

/-- JavaScript truthiness of a possibly-absent string field, as tested
by `if (!transcription || !summary)`: absent and empty are falsy. -/
def jsTruthy : Option String → Bool
  | none => false
  | some s => !(s = "")

/-- Response of `POST /api/recordings`: HTTP status and the stored
document echoed back on 201. -/
structure PostResult where
  status : Nat
  doc : Option RecordingDoc
deriving Repr, DecidableEq

/-- The `POST /api/recordings` handler: 400 when either field is falsy
(nothing stored), 500 when `Recording.create` rejects, else 201 with the
created document, which enters the store stamped with the current clock. -/
def postRecording (dbOk : Bool) (b : PostBody) (st : StoreState) :
    PostResult × StoreState :=
  if !jsTruthy b.transcription || !jsTruthy b.summary then
    (⟨400, none⟩, st)
  else if !dbOk then
    (⟨500, none⟩, st)
  else
    let d : RecordingDoc := ⟨b.transcription.getD "", b.summary.getD "", st.now⟩
    (⟨201, some d⟩, ⟨d :: st.docs, st.now + 1⟩)

/-- Insert a document into a list kept in descending `createdAt` order. -/
def insertDesc (d : RecordingDoc) : List RecordingDoc → List RecordingDoc
  | [] => [d]
  | x :: xs => if x.createdAt ≤ d.createdAt then d :: x :: xs else x :: insertDesc d xs

/-- `Recording.find().sort({ createdAt: -1 })`: the store's documents in
descending `createdAt` order. -/
def sortDescCreated : List RecordingDoc → List RecordingDoc
  | [] => []
  | x :: xs => insertDesc x (sortDescCreated xs)

/-- Response of `GET /api/recordings`. -/
structure GetResult where
  status : Nat
  docs : List RecordingDoc
deriving Repr, DecidableEq

/-- The `GET /api/recordings` handler: the documents sorted
most-recent-first and truncated by `.limit(100)`, or 500 when the query
rejects. -/
def getRecordings (dbOk : Bool) (st : StoreState) : GetResult :=
  if dbOk then ⟨200, (sortDescCreated st.docs).take 100⟩ else ⟨500, []⟩

/-! ## Helper lemmas -/

theorem mem_insertDesc {x d : RecordingDoc} {l : List RecordingDoc} :
    x ∈ insertDesc d l ↔ x = d ∨ x ∈ l := by
  induction l with
  | nil => simp [insertDesc]
  | cons y ys ih =>
    by_cases h : y.createdAt ≤ d.createdAt
    · simp [insertDesc, h]
    · simp [insertDesc, h, ih]
      tauto

theorem mem_sortDescCreated {x : RecordingDoc} {l : List RecordingDoc} :
    x ∈ sortDescCreated l ↔ x ∈ l := by
  induction l with
  | nil => simp [sortDescCreated]
  | cons y ys ih => simp [sortDescCreated, mem_insertDesc, ih]

theorem insertDesc_eq_cons {d : RecordingDoc} {l : List RecordingDoc}
    (h : ∀ x ∈ l, x.createdAt ≤ d.createdAt) : insertDesc d l = d :: l := by
  cases l with
  | nil => rfl
  | cons y ys => simp [insertDesc, h y (by simp)]

theorem pairwise_insertDesc {d : RecordingDoc} {l : List RecordingDoc}
    (h : l.Pairwise (fun a b => b.createdAt ≤ a.createdAt)) :
    (insertDesc d l).Pairwise (fun a b => b.createdAt ≤ a.createdAt) := by
  induction l with
  | nil => simp [insertDesc]
  | cons y ys ih =>
    rcases List.pairwise_cons.1 h with ⟨hy, hys⟩
    by_cases hc : y.createdAt ≤ d.createdAt
    · simp only [insertDesc, if_pos hc]
      refine List.pairwise_cons.2 ⟨?_, h⟩
      intro z hz
      rcases List.mem_cons.1 hz with rfl | hz
      · exact hc
      · exact le_trans (hy z hz) hc
    · simp only [insertDesc, if_neg hc]
      refine List.pairwise_cons.2 ⟨?_, ih hys⟩
      intro z hz
      rcases mem_insertDesc.1 hz with rfl | hz
      · omega
      · exact hy z hz

theorem sortDescCreated_pairwise (l : List RecordingDoc) :
    (sortDescCreated l).Pairwise (fun a b => b.createdAt ≤ a.createdAt) := by
  induction l with
  | nil => simp [sortDescCreated]
  | cons y ys ih => exact pairwise_insertDesc ih

/-! ## Claim theorems -/

/-- C6: posting `{transcription:"t", summary:"s"}` to the persistence
gateway returns 201 with the stored document, and a subsequent listing
returns that document as the most recent (first) item; the listing is in
descending `createdAt` order (most-recent-first) and holds at most 100
entries. The hypotheses say the two fields are non-empty and the store
clock is ahead of every existing document. -/
theorem recordings_post_get_round_trip :
    ∀ (st : StoreState) (t s : String) (res : PostResult) (st' : StoreState),
      t ≠ "" → s ≠ "" →
      (∀ d ∈ st.docs, d.createdAt < st.now) →
      postRecording true ⟨some t, some s⟩ st = (res, st') →
      res.status = 201 ∧
      res.doc = some ⟨t, s, st.now⟩ ∧
      (getRecordings true st').status = 200 ∧
      (getRecordings true st').docs.head? = some ⟨t, s, st.now⟩ ∧
      (getRecordings true st').docs.length ≤ 100 ∧
      (getRecordings true st').docs.Pairwise (fun a b => b.createdAt ≤ a.createdAt) := by
  intro st t s res st' ht hs hmax hpost
  have htt : jsTruthy (some t) = true := by simp [jsTruthy, ht]
  have hss : jsTruthy (some s) = true := by simp [jsTruthy, hs]
  simp [postRecording, htt, hss] at hpost
  obtain ⟨hres, hst⟩ := hpost
  subst hres
  subst hst
  have hsorted :
      sortDescCreated ((⟨t, s, st.now⟩ : RecordingDoc) :: st.docs) =
        (⟨t, s, st.now⟩ : RecordingDoc) :: sortDescCreated st.docs := by
    have : ∀ x ∈ sortDescCreated st.docs,
        x.createdAt ≤ (⟨t, s, st.now⟩ : RecordingDoc).createdAt := by
      intro x hx
      exact le_of_lt (hmax x (mem_sortDescCreated.1 hx))
    exact insertDesc_eq_cons this
  refine ⟨rfl, rfl, rfl, ?_, ?_, ?_⟩
  · simp [getRecordings, hsorted]
  · simp only [getRecordings, if_pos, List.length_take]
    exact Nat.min_le_left _ _
  · have := sortDescCreated_pairwise ((⟨t, s, st.now⟩ : RecordingDoc) :: st.docs)
    simpa [getRecordings] using this.sublist (List.take_sublist 100 _)

/-- Witness for C6 at a concrete store and body. -/
theorem recordings_post_get_round_trip_witness :
    (⟨201, some ⟨"t", "s", 0⟩⟩ : PostResult).status = 201 ∧
    (⟨201, some ⟨"t", "s", 0⟩⟩ : PostResult).doc = some ⟨"t", "s", 0⟩ ∧
    (getRecordings true ⟨[⟨"t", "s", 0⟩], 1⟩).status = 200 ∧
    (getRecordings true ⟨[⟨"t", "s", 0⟩], 1⟩).docs.head? = some ⟨"t", "s", 0⟩ ∧
    (getRecordings true ⟨[⟨"t", "s", 0⟩], 1⟩).docs.length ≤ 100 ∧
    (getRecordings true ⟨[⟨"t", "s", 0⟩], 1⟩).docs.Pairwise
      (fun a b => b.createdAt ≤ a.createdAt) :=
  recordings_post_get_round_trip ⟨[], 0⟩ "t" "s" ⟨201, some ⟨"t", "s", 0⟩⟩
    ⟨[⟨"t", "s", 0⟩], 1⟩ (by decide) (by decide) (by simp) (by decide)

/-- C7: a persistence write in which the `transcription` field or the
`summary` field is missing is rejected with status 400, no document is
echoed back, and the store is left unchanged. -/
theorem recordings_post_missing_field_rejected :
    ∀ (dbOk : Bool) (b : PostBody) (st : StoreState),
      b.transcription = none ∨ b.summary = none →
      postRecording dbOk b st = (⟨400, none⟩, st) := by
  intro dbOk b st h
  rcases h with h | h <;> simp [postRecording, h, jsTruthy]

/-- Witness for C7 at a concrete body with the `transcription` field
missing. -/
theorem recordings_post_missing_field_rejected_witness :
    postRecording true ⟨none, some "s"⟩ ⟨[], 0⟩ = (⟨400, none⟩, ⟨[], 0⟩) :=
  recordings_post_missing_field_rejected true ⟨none, some "s"⟩ ⟨[], 0⟩ (Or.inl rfl)

/-- C8: when `checkPermissions()` comes back false, `handleStartRecording`
leaves every session field untouched (the coordinator stays in `Idle`),
does not start recording, and emits only the permission-required alert
with its `Retry` button — a recoverable signal, not the hard
recording-error alert. -/
theorem start_denied_stays_idle_with_retry :
    ∀ (e : PermEnv) (startResult : Except String Unit) (st : UIState),
      checkPermissions e = false →
      handleStartRecording (checkPermissions e) startResult st =
        (st, [.permissionAlert true]) := by
  intro e startResult st h
  rw [h]
  simp [handleStartRecording]

/-- Witness for C8: a web environment on an insecure origin is denied
and the coordinator state survives unchanged. -/
theorem start_denied_stays_idle_with_retry_witness :
    handleStartRecording (checkPermissions ⟨true, true, false, true, true⟩)
        (Except.ok ()) ⟨false, 0, "", ""⟩ =
      (⟨false, 0, "", ""⟩, [.permissionAlert true]) :=
  start_denied_stays_idle_with_retry ⟨true, true, false, true, true⟩
    (Except.ok ()) ⟨false, 0, "", ""⟩ (by decide)

/-- C4: a summarization response with a success status whose `choices`
array yields no first completion text makes `generateSummary` resolve to
the literal fallback `'No summary generated'` with no error recorded —
the call does not fail. -/
theorem generateSummary_no_choices_fallback :
    ∀ (text : String) (resp : SummaryResp),
      resp.ok = true →
      firstContent resp = Except.ok none →
      generateSummary text resp =
        ⟨"No summary generated", false, none,
          [⟨"openai/chatgpt-4o-latest", buildMessages text, 150, 3 / 10⟩]⟩ := by
  intro text resp hok hfc
  simp [generateSummary, hok, hfc, jsOrElse]

/-- Witness for C4 at a success response with an empty `choices` array. -/
theorem generateSummary_no_choices_fallback_witness :
    generateSummary "t" ⟨true, 200, "", some []⟩ =
      ⟨"No summary generated", false, none,
        [⟨"openai/chatgpt-4o-latest", buildMessages "t", 150, 3 / 10⟩]⟩ :=
  generateSummary_no_choices_fallback "t" ⟨true, 200, "", some []⟩ rfl rfl

/-- C5: for every input text, `generateSummary` issues exactly one
chat-completion request, consisting of exactly the fixed 2–3-sentence
system instruction and a user message wrapping the input, with
`max_tokens` 150 and temperature 0.3; and on a success response carrying
a (non-empty) first completion text, it resolves to that text verbatim
with no error recorded. -/
theorem generateSummary_request_shape_verbatim :
    ∀ (text : String) (resp : SummaryResp) (c : String),
      resp.ok = true →
      firstContent resp = Except.ok (some c) →
      c ≠ "" →
      (∀ r : SummaryResp, (generateSummary text r).requests =
        [⟨"openai/chatgpt-4o-latest",
          [⟨"system", systemInstruction⟩,
           ⟨"user", "Please summarize this text:\n\n" ++ text⟩], 150, 3 / 10⟩]) ∧
      (generateSummary text resp).result = c ∧
      (generateSummary text resp).error = none := by
  intro text resp c hok hfc hc
  refine ⟨?_, ?_, ?_⟩
  · intro r
    unfold generateSummary
    rcases hr : r.ok with _ | _
    · simp [hr, buildMessages]
    · rcases hfr : firstContent r with _ | _ <;> simp [hr, hfr, buildMessages]
  · simp [generateSummary, hok, hfc, jsOrElse, hc]
  · simp [generateSummary, hok, hfc]

/-- Witness for C5 at the spec's scripted transcript and a concrete
completion. -/
theorem generateSummary_request_shape_verbatim_witness :
    (∀ r : SummaryResp,
      (generateSummary "The quick brown fox..." r).requests =
        [⟨"openai/chatgpt-4o-latest",
          [⟨"system", systemInstruction⟩,
           ⟨"user", "Please summarize this text:\n\nThe quick brown fox..."⟩],
          150, 3 / 10⟩]) ∧
    (generateSummary "The quick brown fox..."
        ⟨true, 200, "", some [⟨some ⟨some "A fox jumps."⟩⟩]⟩).result = "A fox jumps." ∧
    (generateSummary "The quick brown fox..."
        ⟨true, 200, "", some [⟨some ⟨some "A fox jumps."⟩⟩]⟩).error = none :=
  generateSummary_request_shape_verbatim "The quick brown fox..."
    ⟨true, 200, "", some [⟨some ⟨some "A fox jumps."⟩⟩]⟩ "A fox jumps."
    rfl rfl (by decide)

/-- C10: `generateSummary` always resolves to a non-empty string and
never rejects: a non-success status or a body without a `choices` array
is caught and yields `'Failed to generate summary. Please try again.'`,
while a well-formed success response with an empty `choices` array
yields `'No summary generated'`. -/
theorem generateSummary_always_resolves_nonempty :
    ∀ (text : String) (resp : SummaryResp),
      (generateSummary text resp).result ≠ "" ∧
      (generateSummary text resp).isGeneratingSummary = false ∧
      (resp.ok = false →
        (generateSummary text resp).result =
          "Failed to generate summary. Please try again.") ∧
      (resp.choices = none →
        (generateSummary text resp).result =
          "Failed to generate summary. Please try again.") ∧
      (resp.ok = true → resp.choices = some [] →
        (generateSummary text resp).result = "No summary generated") := by
  intro text resp
  refine ⟨?_, ?_, ?_, ?_, ?_⟩
  · unfold generateSummary
    rcases hr : resp.ok with _ | _
    · simp [hr]
    · rcases hfr : firstContent resp with _ | c
      · simp [hr, hfr]
      · rcases c with _ | s
        · simp [hr, hfr, jsOrElse]
        · by_cases hs : s = "" <;> simp [hr, hfr, jsOrElse, hs]
  · unfold generateSummary
    rcases hr : resp.ok with _ | _
    · simp [hr]
    · rcases hfr : firstContent resp with _ | c <;> simp [hr, hfr]
  · intro hr
    simp [generateSummary, hr]
  · intro hch
    unfold generateSummary
    rcases hr : resp.ok with _ | _
    · simp [hr]
    · have hfr : firstContent resp = Except.error () := by simp [firstContent, hch]
      simp [hr, hfr]
  · intro hr hch
    have hfr : firstContent resp = Except.ok none := by simp [firstContent, hch]
    simp [generateSummary, hr, hfr, jsOrElse]

/-- Witness for C10 at a concrete non-success response and a concrete
empty-choices response. -/
theorem generateSummary_always_resolves_nonempty_witness :
    (generateSummary "t" ⟨false, 500, "boom", none⟩).result =
        "Failed to generate summary. Please try again." ∧
    (generateSummary "t" ⟨true, 200, "", some []⟩).result = "No summary generated" :=
  ⟨(generateSummary_always_resolves_nonempty "t" ⟨false, 500, "boom", none⟩).2.2.1 rfl,
   (generateSummary_always_resolves_nonempty "t" ⟨true, 200, "", some []⟩).2.2.2.2 rfl rfl⟩

theorem pollLoop_spec :
    ∀ (rest : List PollResp) (cur fin : PollResp) (n : Nat) (ws : List Nat),
      pollLoop cur rest = some (fin, n, ws) →
      (fin.status = "completed" ∨ fin.status = "error") ∧
      ws = List.replicate n 3000 := by
  intro rest
  induction rest with
  | nil =>
    intro cur fin n ws h
    by_cases hc : cur.status = "completed" ∨ cur.status = "error"
    · unfold pollLoop at h
      simp only [if_pos hc] at h
      obtain ⟨rfl, rfl, rfl⟩ := Prod.mk.injEq .. ▸ Option.some.inj h
      exact ⟨hc, rfl⟩
    · unfold pollLoop at h
      simp [hc] at h
  | cons p ps ih =>
    intro cur fin n ws h
    by_cases hc : cur.status = "completed" ∨ cur.status = "error"
    · unfold pollLoop at h
      simp only [if_pos hc] at h
      obtain ⟨rfl, rfl, rfl⟩ := Prod.mk.injEq .. ▸ Option.some.inj h
      exact ⟨hc, rfl⟩
    · unfold pollLoop at h
      simp only [if_neg hc] at h
      rcases hp : pollLoop p ps with _ | ⟨f2, n2, ws2⟩
      · rw [hp] at h
        simp at h
      · rw [hp] at h
        simp only [Option.some.injEq, Prod.mk.injEq] at h
        obtain ⟨rfl, rfl, rfl⟩ := h
        obtain ⟨h1, h2⟩ := ih p f2 n2 ws2 hp
        exact ⟨h1, by simp [h2, List.replicate_succ]⟩

/-- C1: the transcription polling loop waits a fixed 3000 ms before each
poll and runs exactly until the reported status is `completed` or
`error` (an already-terminal status is returned after zero polls); on
the scripted status sequence queued → processing → completed with result
text `"hello world"`, `transcribe` performs exactly 2 poll cycles (each
after a 3000 ms wait) and resolves to `"hello world"`. -/
theorem transcribe_polls_fixed_interval :
    (∀ (cur : PollResp) (rest : List PollResp) (fin : PollResp) (n : Nat)
        (ws : List Nat),
        pollLoop cur rest = some (fin, n, ws) →
        (fin.status = "completed" ∨ fin.status = "error") ∧
        ws = List.replicate n 3000) ∧
    (∀ (cur : PollResp) (rest : List PollResp),
        cur.status = "completed" ∨ cur.status = "error" →
        pollLoop cur rest = some (cur, 0, [])) ∧
    transcribeCore envHelloWorld =
      some (Except.ok (some "hello world"), 2, [3000, 3000]) ∧
    transcribeRun envHelloWorld = some ⟨some "hello world", false, none⟩ := by
  refine ⟨fun cur rest => pollLoop_spec rest cur, ?_, ?_, ?_⟩
  · intro cur rest hc
    unfold pollLoop
    simp [hc]
  · simp [transcribeCore, envHelloWorld, pollLoop]
  · simp [transcribeRun, transcribeCore, envHelloWorld, pollLoop]

/-- Witness for C1: the loop properties applied to the script of
`envHelloWorld` and to an already-completed status. -/
theorem transcribe_polls_fixed_interval_witness :
    (((⟨"completed", some "hello world", none⟩ : PollResp).status = "completed" ∨
      (⟨"completed", some "hello world", none⟩ : PollResp).status = "error") ∧
      ([3000, 3000] : List Nat) = List.replicate 2 3000) ∧
    pollLoop ⟨"completed", some "x", none⟩ [] =
      some (⟨"completed", some "x", none⟩, 0, []) :=
  ⟨transcribe_polls_fixed_interval.1 ⟨"queued", none, none⟩ envHelloWorld.polls
      ⟨"completed", some "hello world", none⟩ 2 [3000, 3000]
      (by simp [envHelloWorld, pollLoop]),
   transcribe_polls_fixed_interval.2.1 ⟨"completed", some "x", none⟩ []
      (Or.inl rfl)⟩

/-- C2: a non-success upload response makes `transcribe` throw
`UploadFailed` carrying the server-provided error body (and the caught
promise resolves to `null` with that message); a polled job reaching
status `error` makes it throw `TranscriptionFailed` carrying the
server-reported message, and in particular the scripted `error` status
with message `"bad audio"` yields `TranscriptionFailed "bad audio"`. -/
theorem transcribe_error_paths :
    (∀ env : TranscribeEnv, env.blobOk = true → env.upload.ok = false →
        transcribeCore env =
          some (.error (.UploadFailed env.upload.errText), 0, []) ∧
        transcribeRun env =
          some ⟨none, false, some ("Upload failed: " ++ env.upload.errText)⟩) ∧
    (∀ (env : TranscribeEnv) (fin : PollResp) (n : Nat) (ws : List Nat),
        env.blobOk = true → env.upload.ok = true → env.submit.ok = true →
        pollLoop env.submit.initial env.polls = some (fin, n, ws) →
        fin.status = "error" →
        transcribeCore env =
          some (.error (.TranscriptionFailed (jsCoerce fin.error)), n, ws)) ∧
    transcribeCore envBadAudio =
      some (.error (.TranscriptionFailed "bad audio"), 0, []) ∧
    transcribeRun envBadAudio =
      some ⟨none, false, some "Transcription failed: bad audio"⟩ := by
  refine ⟨?_, ?_, ?_, ?_⟩
  · intro env hb hu
    constructor
    · simp [transcribeCore, hb, hu]
    · simp [transcribeRun, transcribeCore, hb, hu, errMessage]
  · intro env fin n ws hb hu hs hp he
    simp [transcribeCore, hb, hu, hs, hp, he]
  · simp [transcribeCore, envBadAudio, pollLoop, jsCoerce]
  · simp [transcribeRun, transcribeCore, envBadAudio, pollLoop, jsCoerce, errMessage]

/-- Witness for C2: the upload-failure arm at a concrete environment. -/
theorem transcribe_error_paths_witness :
    transcribeCore ⟨true, "", ⟨false, 500, "no perms", ""⟩,
        ⟨true, 200, "", "j", ⟨"queued", none, none⟩⟩, []⟩ =
      some (.error (.UploadFailed "no perms"), 0, []) ∧
    transcribeRun ⟨true, "", ⟨false, 500, "no perms", ""⟩,
        ⟨true, 200, "", "j", ⟨"queued", none, none⟩⟩, []⟩ =
      some ⟨none, false, some "Upload failed: no perms"⟩ :=
  transcribe_error_paths.1
    ⟨true, "", ⟨false, 500, "no perms", ""⟩,
      ⟨true, 200, "", "j", ⟨"queued", none, none⟩⟩, []⟩ rfl rfl

/-- C3: evaluation of the web `stopRecording` at the failing input. With
a recorder present and the reference extraction (`Blob` construction /
`URL.createObjectURL`) throwing inside the `onstop` handler, the
returned promise never settles and the stream's tracks stay live: the
exclusive device resource is NOT released on this exit path, although
the claim (and §4.1/§8 of the design) requires release on every exit
path of `stop()`. -/
theorem stopRecording_web_leaks_on_extract_failure :
    stopRecordingWeb ⟨true, false, ""⟩ ⟨true, true, true⟩ =
      (.hung, ⟨true, true, true⟩) ∧
    (stopRecordingWeb ⟨true, false, ""⟩ ⟨true, true, true⟩).2.deviceHeld = true := by
  decide

/-- C9: whenever the polling loop terminates, the promise returned by
`transcribe` resolves rather than rejects: the `isTranscribing` flag is
reset to false, every failure mode (blob-fetch error, non-success
upload, non-success submit, terminal `error` status) resolves to `null`
with the error recorded, and success resolves to the completed job's
text with no error recorded. -/
theorem transcribe_always_resolves :
    ∀ (env : TranscribeEnv) (o : TranscribeOutcome),
      transcribeRun env = some o →
      o.isTranscribing = false ∧
      (env.blobOk = false → o.result = none ∧ o.error = some env.blobErrMsg) ∧
      (env.upload.ok = false → o.result = none) ∧
      (env.submit.ok = false → o.result = none) ∧
      (∀ (fin : PollResp) (n : Nat) (ws : List Nat),
          pollLoop env.submit.initial env.polls = some (fin, n, ws) →
          fin.status = "error" → o.result = none) ∧
      (∀ (t : Option String) (n : Nat) (ws : List Nat),
          transcribeCore env = some (Except.ok t, n, ws) →
          o.result = t ∧ o.error = none) := by
  intro env o h
  rcases hb : env.blobOk with _ | _
  · simp [transcribeRun, transcribeCore, hb, errMessage] at h
    obtain rfl := h.symm
    refine ⟨rfl, fun _ => ⟨rfl, rfl⟩, fun _ => rfl, fun _ => rfl,
      fun _ _ _ _ _ => rfl, ?_⟩
    intro t n ws hcore
    simp [transcribeCore, hb] at hcore
  · rcases hu : env.upload.ok with _ | _
    · simp [transcribeRun, transcribeCore, hb, hu, errMessage] at h
      obtain rfl := h.symm
      refine ⟨rfl, fun hb2 => by simp [hb] at hb2, fun _ => rfl, fun _ => rfl,
        fun _ _ _ _ _ => rfl, ?_⟩
      intro t n ws hcore
      simp [transcribeCore, hb, hu] at hcore
    · rcases hs : env.submit.ok with _ | _
      · simp [transcribeRun, transcribeCore, hb, hu, hs, errMessage] at h
        obtain rfl := h.symm
        refine ⟨rfl, fun hb2 => by simp [hb] at hb2,
          fun hu2 => by simp [hu] at hu2, fun _ => rfl,
          fun _ _ _ _ _ => rfl, ?_⟩
        intro t n ws hcore
        simp [transcribeCore, hb, hu, hs] at hcore
      · rcases hp : pollLoop env.submit.initial env.polls with _ | ⟨fin, n, ws⟩
        · simp [transcribeRun, transcribeCore, hb, hu, hs, hp] at h
        · by_cases he : fin.status = "error"
          · simp [transcribeRun, transcribeCore, hb, hu, hs, hp, he,
              errMessage] at h
            obtain rfl := h.symm
            refine ⟨rfl, fun hb2 => by simp [hb] at hb2,
              fun hu2 => by simp [hu] at hu2,
              fun hs2 => by simp [hs] at hs2,
              fun _ _ _ _ _ => rfl, ?_⟩
            intro t n2 ws2 hcore
            simp [transcribeCore, hb, hu, hs, hp, he] at hcore
          · simp [transcribeRun, transcribeCore, hb, hu, hs, hp, he] at h
            obtain rfl := h.symm
            refine ⟨rfl, fun hb2 => by simp [hb] at hb2,
              fun hu2 => by simp [hu] at hu2,
              fun hs2 => by simp [hs] at hs2, ?_, ?_⟩
            · intro fin2 n2 ws2 hp2 he2
              simp only [Option.some.injEq, Prod.mk.injEq] at hp2
              obtain ⟨rfl, rfl, rfl⟩ := hp2
              exact absurd he2 he
            · intro t n2 ws2 hcore
              simp [transcribeCore, hb, hu, hs, hp, he] at hcore
              exact ⟨hcore.1, rfl⟩

/-- Witness for C9 at a blob-fetch-failure environment. -/
theorem transcribe_always_resolves_witness :
    (⟨none, false, some "fetch failed"⟩ : TranscribeOutcome).isTranscribing = false ∧
    (⟨none, false, some "fetch failed"⟩ : TranscribeOutcome).result = none :=
  have h := transcribe_always_resolves
    ⟨false, "fetch failed", ⟨true, 200, "", ""⟩,
      ⟨true, 200, "", "j", ⟨"queued", none, none⟩⟩, []⟩
    ⟨none, false, some "fetch failed"⟩ rfl
  ⟨h.1, (h.2.1 rfl).1⟩

end Briefliee
